import Mathlib

/-!
# Verification of the `zf_rush` proxy pool and retry-driven request executor

A shallow embedding of `src/zf_rush/proxy.py` and `src/zf_rush/client.py`.

Conventions:
* Python strings are Lean `String`s; where character-level parsing matters we
  work on `List Char` obtained via `String.toList`.
* Python exceptions are modelled by the inductive `PyExn`; a Python function
  that may raise is embedded as a function into `Except PyExn _` (or into a
  result type that records the raised exception together with the state at the
  moment it escaped).
* `asyncio.Queue(maxsize=1)` is modelled as a `List String` together with a
  `maxsize` parameter; `put_nowait`/`get_nowait` are the only operations the
  source uses, and both are embedded as total functions returning `Except`.
* Awaited network calls are modelled by passing in their results explicitly
  (a provider's answer for a pass is an `Option String`; the transport's answer
  to an attempt is an `AttemptOutcome`).
-/

namespace ZfRush

/-! ## Python exception model

The executor's retry set (client.py lines 37-43) is the tuple
`(httpx.RequestError, httpx.ProxyError, httpx.ConnectTimeout, ConnectionResetError)`.
In the httpx class hierarchy, `ProxyError` and `ConnectTimeout` are subclasses
of `RequestError` (via `TransportError` / `TimeoutException`), while
`HTTPStatusError` derives from `HTTPError` directly and is NOT a subclass of
`RequestError`; `ConnectionResetError` is a builtin `OSError` subclass.
`caughtByRetryExceptions` is Python's `isinstance`-against-the-tuple test. -/

inductive PyExn where
  | httpStatusError (status : Nat)
  | requestError
  | proxyError
  | connectTimeout
  | connectionResetError
  | nameError (n : String)
  | valueError
  | otherError
deriving DecidableEq, Repr

/-- The test `except self.retry_exceptions` (client.py line 151): which exception
classes the tuple on lines 38-43 catches, per the httpx hierarchy. -/
def caughtByRetryExceptions : PyExn → Bool
  | .requestError => true
  | .proxyError => true
  | .connectTimeout => true
  | .connectionResetError => true
  | _ => false

/-! ## Character-level helpers for the `urllib.parse.urlparse` model -/

/-- Python `s.partition(c)` on character lists: `(before, found, after)` splits at the
first occurrence of `c`. -/
def partitionAt (c : Char) : List Char → List Char × Bool × List Char
  | [] => ([], false, [])
  | x :: xs =>
    if x = c then ([], true, xs)
    else
      let r := partitionAt c xs
      (x :: r.1, r.2.1, r.2.2)

/-- Python `s.rpartition(c)[2]`: the part after the last occurrence of `c`
(the whole list when `c` is absent). -/
def rpartitionAfter (c : Char) (l : List Char) : List Char :=
  (l.reverse.takeWhile (fun x => x ≠ c)).reverse

/-- Python `s.split(c)` on character lists (always at least one group). -/
def splitOnChar (c : Char) : List Char → List (List Char)
  | [] => [[]]
  | x :: xs =>
    if x = c then [] :: splitOnChar c xs
    else
      match splitOnChar c xs with
      | [] => [[x]]
      | g :: gs => (x :: g) :: gs

/-- Decimal value of a digit list (callers guard with `all Char.isDigit`). -/
def decDigitsVal (l : List Char) : Nat :=
  l.foldl (fun n c => n * 10 + (c.toNat - 48)) 0

/-! ## `urllib.parse.urlparse` model (the parts `_validate_proxy` consults)

`urlparse(proxy)` splits `scheme` (a leading run of scheme characters before a
colon, lowercased), then `netloc` (after a leading `//`, up to `/`, `?` or `#`).
The `hostname` and `port` properties then read the netloc: userinfo before the
last `@` is dropped, a bracketed host is the part between `[` and `]` with the
port after `]:`, otherwise the host is the part before the first `:` and the
port the part after it; an empty port string means no port.  `hostname` is
lowercased and `None` when empty; the `port` property casts the port string
with `int(-, 10)` (modelled for an optional sign followed by decimal digits)
and raises `ValueError` when the cast fails or the value is outside
`[0, 65535]`. -/

/-- Scheme characters accepted by `urlsplit` (letters, digits, `+`, `-`, `.`),
with the first character required to be a letter. -/
def validSchemeChars : List Char → Bool
  | [] => false
  | c :: rest => c.isAlpha && (c :: rest).all fun x =>
      x.isAlpha || x.isDigit || x == '+' || x == '-' || x == '.'

/-- Split off the scheme: `(scheme.lower(), remainder)`; no valid scheme
before the first colon leaves the input unchanged with scheme `""`. -/
def splitScheme (l : List Char) : String × List Char :=
  match partitionAt ':' l with
  | (pre, found, post) =>
    if found && validSchemeChars pre then
      (String.mk (pre.map Char.toLower), post)
    else ("", l)

/-- Split off the netloc after a leading `//`: `(netloc, remainder)`. -/
def splitNetloc (l : List Char) : List Char × List Char :=
  match l with
  | '/' :: '/' :: rest =>
    (rest.takeWhile (fun c => !(c == '/' || c == '?' || c == '#')),
     rest.dropWhile (fun c => !(c == '/' || c == '?' || c == '#')))
  | _ => ([], l)

/-- The `_hostinfo` computation: `(host characters, port characters?)`. -/
def hostinfoOf (netloc : List Char) : List Char × Option (List Char) :=
  let hi := rpartitionAfter '@' netloc
  match partitionAt '[' hi with
  | (_, true, bracketed) =>
    match partitionAt ']' bracketed with
    | (host, _, rest) =>
      match partitionAt ':' rest with
      | (_, _, port) => (host, if port.isEmpty then none else some port)
  | (_, false, _) =>
    match partitionAt ':' hi with
    | (host, _, port) => (host, if port.isEmpty then none else some port)

/-- The `hostname` property: lowercased host, `None` when empty. -/
def hostnameOf (netloc : List Char) : Option String :=
  match hostinfoOf netloc with
  | (h, _) => if h.isEmpty then none else some (String.mk (h.map Char.toLower))

/-- Python `int(s, 10)` for an optional sign followed by decimal digits; `none`
models a `ValueError` from the cast. -/
def pyParseIntChars (l : List Char) : Option Int :=
  match l with
  | '+' :: ds =>
    if !ds.isEmpty && ds.all Char.isDigit then some (decDigitsVal ds) else none
  | '-' :: ds =>
    if !ds.isEmpty && ds.all Char.isDigit then some (-(decDigitsVal ds : Int)) else none
  | ds =>
    if !ds.isEmpty && ds.all Char.isDigit then some (decDigitsVal ds) else none

/-- The `port` property of a parse result: `ok none` when no port is present,
`ok (some p)` for an in-range port, `error` for the two `ValueError` cases
(uncastable string, out of range `[0, 65535]`). -/
def portOf (netloc : List Char) : Except PyExn (Option Nat) :=
  match hostinfoOf netloc with
  | (_, none) => .ok none
  | (_, some pstr) =>
    match pyParseIntChars pstr with
    | none => .error .valueError
    | some i =>
      if 0 ≤ i ∧ i ≤ 65535 then .ok (some i.toNat) else .error .valueError

/-! ## `ipaddress.IPv4Address` syntactic check

`IPv4Address(h)` succeeds exactly on four dot-separated octets, each a
non-empty run of at most three ASCII digits with no leading zero, of value
at most 255.  `IPv4Address(None)` raises `AddressValueError` (the string
`"None"` is not a dotted quad), which `_validate_proxy` catches. -/

/-- One octet of a dotted quad, per `ipaddress._parse_octet`. -/
def isValidOctet (l : List Char) : Bool :=
  !l.isEmpty && l.length ≤ 3 && l.all Char.isDigit &&
    (match l with | '0' :: _ :: _ => false | _ => true) &&
    decDigitsVal l ≤ 255

/-- Syntactically valid IPv4 dotted quad. -/
def isValidIPv4 (h : String) : Bool :=
  match splitOnChar '.' h.toList with
  | [a, b, c, d] => isValidOctet a && isValidOctet b && isValidOctet c && isValidOctet d
  | _ => false

/-! ## `ProxyPool._validate_proxy` (proxy.py lines 135-164)

The body runs under `try ... except Exception: return False`, so every raise
inside it (including the `ValueError` that the `port` property itself raises
for an out-of-range or non-numeric port) is absorbed into `False`; the
function is total.  The checks, in source order: scheme in `{http, https}`,
`IPv4Address(parsed.hostname)` (its `AddressValueError` is caught by the
inner `try` and yields `False`), `if not parsed.port` (`None` and `0` are
both falsy), then the range test `1 <= parsed.port <= 65535`. -/

def validateCore (scheme : String) (netloc : List Char) : Bool :=
  if !(scheme == "http" || scheme == "https") then false
  else
    match hostnameOf netloc with
    | none => false
    | some h =>
      if !isValidIPv4 h then false
      else
        match portOf netloc with
        | .error _ => false
        | .ok none => false
        | .ok (some p) => if p == 0 then false else decide (1 ≤ p ∧ p ≤ 65535)

def validate_proxy (proxy : String) : Bool :=
  validateCore (splitScheme proxy.toList).1
    (splitNetloc (splitScheme proxy.toList).2).1

/-- The specification's validity predicate, in the spec's words: the address
parses as a URI whose scheme is `http` or `https`, whose host is a
syntactically valid IPv4 dotted quad, and whose port lies in `[1, 65535]`
(stated over the same parse components). -/
def specValidProxy (proxy : String) : Prop :=
  ((splitScheme proxy.toList).1 = "http" ∨ (splitScheme proxy.toList).1 = "https") ∧
  (∃ h, hostnameOf (splitNetloc (splitScheme proxy.toList).2).1 = some h ∧
    isValidIPv4 h = true) ∧
  (∃ p, portOf (splitNetloc (splitScheme proxy.toList).2).1 = Except.ok (some p) ∧
    1 ≤ p ∧ p ≤ 65535)

theorem validateCore_iff_spec (scheme : String) (netloc : List Char) :
    validateCore scheme netloc = true ↔
      ((scheme = "http" ∨ scheme = "https") ∧
       (∃ h, hostnameOf netloc = some h ∧ isValidIPv4 h = true) ∧
       (∃ p, portOf netloc = Except.ok (some p) ∧ 1 ≤ p ∧ p ≤ 65535)) := by
  unfold validateCore
  by_cases hs : scheme == "http" || scheme == "https"
  · simp only [hs, Bool.not_true, Bool.false_eq_true, if_false]
    cases hh : hostnameOf netloc with
    | none =>
      simp [hh]
    | some h =>
      by_cases hip : isValidIPv4 h
      · simp only [hip, Bool.not_true, Bool.false_eq_true, if_false]
        cases hp : portOf netloc with
        | error e => simp [hh, hip, hp]
        | ok po =>
          cases po with
          | none => simp [hh, hip, hp]
          | some p =>
            by_cases hz : p = 0
            · subst hz
              simp [hh, hip, hp]
            · have : (p == 0) = false := by simp [hz]
              simp only [this, Bool.false_eq_true, if_false, decide_eq_true_eq]
              constructor
              · intro hpr
                refine ⟨?_, ⟨h, rfl, hip⟩, ⟨p, rfl, hpr.1, hpr.2⟩⟩
                rcases Bool.or_eq_true_iff.mp hs with h1 | h1
                · exact Or.inl (by simpa using h1)
                · exact Or.inr (by simpa using h1)
              · rintro ⟨-, -, ⟨q, hq, hq1, hq2⟩⟩
                cases hq
                exact ⟨hq1, hq2⟩
      · simp [hh, hip]
  · simp only [hs, Bool.not_false, if_true]
    constructor
    · intro h
      exact absurd h (by simp)
    · rintro ⟨h1, -⟩
      exfalso
      rcases h1 with h1 | h1 <;> simp [h1] at hs

/-- C5: the function `_validate_proxy` is total (it is a Lean function into `Bool`,
every internal raise being absorbed into `false`), and it accepts an address
iff its scheme is `http`/`https`, its host a syntactically valid IPv4 dotted
quad, and its port in `[1, 65535]`; the spec's five example inputs evaluate
as stated. -/
theorem validate_proxy_correct :
    (∀ a, validate_proxy a = true ↔ specValidProxy a) ∧
    validate_proxy "http://192.0.2.1:8080" = true ∧
    validate_proxy "ftp://1.2.3.4:80" = false ∧
    validate_proxy "http://999.1.1.1:80" = false ∧
    validate_proxy "http://1.2.3.4:70000" = false ∧
    validate_proxy "http://1.2.3.4" = false := by
  refine ⟨fun a => ?_, by decide, by decide, by decide, by decide, by decide⟩
  unfold validate_proxy specValidProxy
  exact validateCore_iff_spec _ _

/-! ## The single-slot buffer: `asyncio.Queue(maxsize=1)` (proxy.py line 49)

The pool's queue is created with `maxsize=1` and touched only through
`put_nowait` (preload worker, line 116) and `get_nowait` (`get_next_proxy`,
line 170).  `asyncio.Queue.full()` is `0 < maxsize and maxsize <= qsize()`;
`put_nowait` raises `QueueFull` on a full queue, `get_nowait` raises
`QueueEmpty` on an empty one. -/

def proxyQueueMaxsize : Nat := 1

inductive QueueError where
  | queueFull
  | queueEmpty
deriving DecidableEq, Repr

def put_nowait (maxsize : Nat) (q : List String) (x : String) :
    Except QueueError (List String) :=
  if 0 < maxsize ∧ maxsize ≤ q.length then .error .queueFull else .ok (q ++ [x])

def get_nowait (q : List String) : Except QueueError (String × List String) :=
  match q with
  | [] => .error .queueEmpty
  | x :: rest => .ok (x, rest)

def queueFullCheck (maxsize : Nat) (q : List String) : Bool :=
  decide (0 < maxsize ∧ maxsize ≤ q.length)

/-! ## `ProxyPool._preload_worker`, one pass of the provider scan
(proxy.py lines 96-133)

One iteration of the worker's `while` loop, with the answers the providers
would give on this pass passed in as a list (`none` models a provider whose
`get_proxy()` returned `None`; an empty string is falsy in Python, like
`None`, under `if proxy and self._validate_proxy(proxy)`).  The iteration
first computes `wait_time = self._cooldown_time`; if the queue is full it
becomes `self._full_queue_cooldown`; otherwise the provider loop runs under
the lock: each provider is contacted in order (the stop event is checked
before each contact), a truthy candidate that passes `_validate_proxy` is
`put_nowait` into the queue — on success `wait_time` becomes `0` and the loop
CONTINUES with the next provider; only a `QueueFull` from the put breaks the
loop — and a falsy or invalid candidate increments
`self.invalid_proxy_count`. -/

def cooldownTime : ℚ := 1 / 2

def fullQueueCooldown : ℚ := 5

structure ScanState where
  queue : List String
  waitTime : ℚ
  invalidCount : Nat
  contacted : Nat
deriving DecidableEq, Repr

/-- The `for provider in self.providers` loop (proxy.py lines 109-122);
`st.contacted` counts how many providers had `get_proxy()` awaited. -/
def scanProviders (stop : Bool) : List (Option String) → ScanState → ScanState
  | [], st => st
  | p :: rest, st =>
    if stop then st
    else
      let st1 : ScanState := { st with contacted := st.contacted + 1 }
      match p with
      | some s =>
        if !s.isEmpty && validate_proxy s then
          match put_nowait proxyQueueMaxsize st1.queue s with
          | .ok q2 => scanProviders stop rest { st1 with queue := q2, waitTime := 0 }
          | .error _ => st1
        else scanProviders stop rest { st1 with invalidCount := st1.invalidCount + 1 }
      | none => scanProviders stop rest { st1 with invalidCount := st1.invalidCount + 1 }

/-- One full pass of the preload worker body (lines 100-122): the computed
`ScanState` carries the queue, the wait time to be slept, the invalid-proxy
counter and the number of providers contacted. -/
def preloadIteration (stop : Bool) (providerAnswers : List (Option String))
    (queue : List String) (invalid : Nat) : ScanState :=
  if queueFullCheck proxyQueueMaxsize queue then
    { queue := queue, waitTime := fullQueueCooldown, invalidCount := invalid,
      contacted := 0 }
  else
    scanProviders stop providerAnswers
      { queue := queue, waitTime := cooldownTime, invalidCount := invalid,
        contacted := 0 }

/-- C2 counterexample: two providers, both answering valid addresses,
empty buffer: the first provider's address is put successfully and the wait
time is set to `0`, yet the second provider is still contacted
(`contacted = 2`), contradicting "no further provider is contacted in that
pass". -/
theorem preload_success_does_not_short_circuit :
    preloadIteration false
      [some "http://1.2.3.4:80", some "http://5.6.7.8:80"] [] 0
    = { queue := ["http://1.2.3.4:80"], waitTime := 0, invalidCount := 0,
        contacted := 2 } := by
  decide

/-- C2 amended: a complete characterization of each step of the provider
scan, so of every pass, since a pass is the fold of these steps.  A candidate
that is absent (`None`, or an empty string, both falsy under
`if proxy and self._validate_proxy(proxy)`) or that fails validation
increments the invalid-address counter and the scan continues with the next
provider; a validated candidate whose non-blocking put succeeds sets the next
sleep to zero and the scan still continues with the remaining providers (no
short-circuit); the pass stops early exactly in the one remaining case, a
validated candidate whose put fails with `QueueFull`, which leaves the queue,
the wait time and the invalid counter unchanged. -/
theorem preload_pass_characterization :
    (∀ (rest : List (Option String)) (st : ScanState),
      scanProviders false (none :: rest) st
        = scanProviders false rest
            { st with invalidCount := st.invalidCount + 1,
                      contacted := st.contacted + 1 })
    ∧ (∀ (s : String) (rest : List (Option String)) (st : ScanState),
        s.isEmpty = true ∨ validate_proxy s = false →
        scanProviders false (some s :: rest) st
          = scanProviders false rest
              { st with invalidCount := st.invalidCount + 1,
                        contacted := st.contacted + 1 })
    ∧ (∀ (s : String) (rest : List (Option String)) (st : ScanState)
        (q2 : List String),
        s.isEmpty = false → validate_proxy s = true →
        put_nowait proxyQueueMaxsize st.queue s = .ok q2 →
        scanProviders false (some s :: rest) st
          = scanProviders false rest
              { st with queue := q2, waitTime := 0,
                        contacted := st.contacted + 1 })
    ∧ (∀ (s : String) (rest : List (Option String)) (st : ScanState),
        s.isEmpty = false → validate_proxy s = true →
        put_nowait proxyQueueMaxsize st.queue s = .error .queueFull →
        scanProviders false (some s :: rest) st
          = { st with contacted := st.contacted + 1 }) := by
  refine ⟨?_, ?_, ?_, ?_⟩
  · intro rest st
    simp [scanProviders]
  · intro s rest st h
    rcases h with h | h <;> simp [scanProviders, h]
  · intro s rest st q2 hs hv hput
    simp [scanProviders, hs, hv, hput]
  · intro s rest st hs hv hput
    simp [scanProviders, hs, hv, hput]

/-- C2 amended witness: an invalid candidate (rejected by `_validate_proxy`)
increments the counter and the scan continues; a validated candidate put into
the empty buffer sets the sleep to zero and the scan continues; a validated
candidate meeting a full buffer stops the pass. -/
theorem preload_pass_characterization_witness :
    (scanProviders false [some "ftp://1.2.3.4:80"]
        { queue := [], waitTime := 1 / 2, invalidCount := 0, contacted := 0 }
      = scanProviders false []
        { queue := [], waitTime := 1 / 2, invalidCount := 0 + 1, contacted := 0 + 1 })
    ∧ (scanProviders false
          [some "http://5.6.7.8:80", some "http://9.9.9.9:9"]
          { queue := [], waitTime := 1 / 2, invalidCount := 0, contacted := 0 }
      = scanProviders false [some "http://9.9.9.9:9"]
          { queue := ["http://5.6.7.8:80"], waitTime := 0, invalidCount := 0,
            contacted := 0 + 1 })
    ∧ (scanProviders false [some "http://9.9.9.9:9"]
          { queue := ["http://5.6.7.8:80"], waitTime := 0, invalidCount := 0,
            contacted := 1 }
      = { queue := ["http://5.6.7.8:80"], waitTime := 0, invalidCount := 0,
          contacted := 1 + 1 }) :=
  ⟨preload_pass_characterization.2.1 "ftp://1.2.3.4:80" []
      { queue := [], waitTime := 1 / 2, invalidCount := 0, contacted := 0 }
      (Or.inr (by decide)),
   preload_pass_characterization.2.2.1 "http://5.6.7.8:80"
      [some "http://9.9.9.9:9"]
      { queue := [], waitTime := 1 / 2, invalidCount := 0, contacted := 0 }
      ["http://5.6.7.8:80"] (by decide) (by decide) rfl,
   preload_pass_characterization.2.2.2 "http://9.9.9.9:9" []
      { queue := ["http://5.6.7.8:80"], waitTime := 0, invalidCount := 0,
        contacted := 1 }
      (by decide) (by decide) rfl⟩

/-! ## Buffer-occupancy invariant (C7)

The only queue operations the source performs are `put_nowait` (preload
worker) and `get_nowait` (consumers); an arbitrary interleaving of them is a
list of `QueueOp`s applied to the queue, a failed operation leaving the queue
unchanged. -/

inductive QueueOp where
  | putNow (x : String)
  | getNow
deriving DecidableEq, Repr

def applyOp (q : List String) : QueueOp → List String
  | .putNow x =>
    match put_nowait proxyQueueMaxsize q x with
    | .ok q2 => q2
    | .error _ => q
  | .getNow =>
    match get_nowait q with
    | .ok (_, rest) => rest
    | .error _ => q

def runOps : List QueueOp → List String → List String
  | [], q => q
  | op :: ops, q => runOps ops (applyOp q op)

theorem applyOp_preserves_bound (q : List String) (op : QueueOp)
    (h : q.length ≤ proxyQueueMaxsize) :
    (applyOp q op).length ≤ proxyQueueMaxsize := by
  cases op with
  | putNow x =>
    simp only [applyOp, put_nowait, proxyQueueMaxsize] at *
    by_cases hf : 0 < 1 ∧ 1 ≤ q.length
    · simp [hf, h]
    · simp only [hf, if_false]
      have : q.length = 0 := by omega
      simp [this]
  | getNow =>
    cases q with
    | nil => simp [applyOp, get_nowait]
    | cons x rest =>
      simp only [applyOp, get_nowait]
      simp at h
      omega

theorem runOps_preserves_bound (ops : List QueueOp) :
    ∀ q : List String, q.length ≤ proxyQueueMaxsize →
      (runOps ops q).length ≤ proxyQueueMaxsize := by
  induction ops with
  | nil => intro q h; simpa [runOps] using h
  | cons op ops ih =>
    intro q h
    simpa [runOps] using ih _ (applyOp_preserves_bound q op h)

/-- C7: the pool's buffer is created with capacity exactly `1`; under any
interleaving of the source's non-blocking puts and takes, starting from the
initially empty queue, the buffer never holds more than one address; and a
non-blocking put into a non-empty (hence full) buffer fails with `QueueFull`
instead of adding a second address. -/
theorem buffer_at_most_one :
    proxyQueueMaxsize = 1 ∧
    (∀ ops : List QueueOp, (runOps ops []).length ≤ 1) ∧
    (∀ (x y : String) (q : List String),
      put_nowait proxyQueueMaxsize (y :: q) x = .error .queueFull) := by
  refine ⟨rfl, fun ops => runOps_preserves_bound ops [] (by simp), ?_⟩
  intro x y q
  simp [put_nowait, proxyQueueMaxsize, Nat.succ_le_succ]

/-! ## `ProxyPool.get_next_proxy` (proxy.py lines 166-183)

First a non-blocking take from the queue; on `QueueEmpty`, a scan over the
providers under the lock, returning the first truthy answer (`if proxy:
return proxy`) — `_validate_proxy` is never consulted on this path — and
`None` when every provider's answer is falsy. -/

def firstTruthy : List (Option String) → Option String
  | [] => none
  | p :: rest =>
    match p with
    | some s => if !s.isEmpty then some s else firstTruthy rest
    | none => firstTruthy rest

/-- Function `get_next_proxy`, returning the produced address together with the queue
as it remains afterwards; `providerAnswers` are the answers the providers
would give when contacted on the fallback path. -/
def get_next_proxy (queue : List String) (providerAnswers : List (Option String)) :
    Option String × List String :=
  match get_nowait queue with
  | .ok (p, rest) => (some p, rest)
  | .error _ => (firstTruthy providerAnswers, queue)

theorem firstTruthy_none_iff (provs : List (Option String)) :
    firstTruthy provs = none ↔
      ∀ o ∈ provs, o = none ∨ o = some "" := by
  induction provs with
  | nil => simp [firstTruthy]
  | cons p rest ih =>
    cases p with
    | none => simp [firstTruthy, ih]
    | some s =>
      by_cases hs : s.isEmpty
      · have hse : s = "" := (String.isEmpty_iff s).mp hs
        subst hse
        simp [firstTruthy, hs, ih]
      · have hse : ¬s = "" := fun h => hs ((String.isEmpty_iff s).mpr h)
        simp [firstTruthy, hs, ih, hse]

/-- C6: the method `get_next_proxy` returns the buffered address when the single-slot
buffer is non-empty; on an empty buffer it returns the first truthy answer of
the provider scan — validation is not re-applied there (an address rejected by
`_validate_proxy` is still returned, witnessed by `ftp://1.2.3.4:80`) — and it
returns `none` exactly when the buffer is empty and every provider's answer is
falsy. -/
theorem get_next_proxy_correct :
    (∀ (p : String) (rest : List String) (provs : List (Option String)),
      get_next_proxy (p :: rest) provs = (some p, rest)) ∧
    (∀ provs : List (Option String), (get_next_proxy [] provs).1 = firstTruthy provs) ∧
    (∀ provs : List (Option String),
      (get_next_proxy [] provs).1 = none ↔ ∀ o ∈ provs, o = none ∨ o = some "") ∧
    ((get_next_proxy [] [some "ftp://1.2.3.4:80"]).1 = some "ftp://1.2.3.4:80"
      ∧ validate_proxy "ftp://1.2.3.4:80" = false) := by
  refine ⟨fun p rest provs => rfl, fun provs => rfl, fun provs => ?_, by decide, by decide⟩
  simpa [get_next_proxy, get_nowait] using firstTruthy_none_iff provs

/-! ## `BaseApiClient._request_with_retry` (client.py lines 133-158)

The attempt loop, embedded with the outside world passed in explicitly:

* `outcomes i` is what `client.request` does on the `i`-th attempt of this
  call — either a response with a status code or a raised exception;
* the pool is a list of the successive answers `get_next_proxy()` will give
  (`none` both for "pool exhausted" and for a `None` answer);
* `RunState.client` is `none` when no transport exists yet
  (`_get_http_client` then builds one, and `_create_http_client` calls
  `get_next_proxy()` and binds the transport to that address) and
  `some p` for a transport bound to proxy `p`;
* `boundProxies` records the address each created transport was bound to,
  `discarded` the answers fetched on line 153 and dropped.

Lines 144-149 convert a response whose status is in `retry_status_codes`
into a raised `httpx.HTTPStatusError`; line 151 catches exactly the
`retry_exceptions` tuple (see `caughtByRetryExceptions`); the handler calls
`get_next_proxy()` (result discarded), `_refresh_client()` (which closes the
old transport and builds a new one via `_create_http_client`, calling
`get_next_proxy()` again), increments `retries`, and re-raises once
`retries > max_retries`.  An uncaught exception propagates immediately. -/

def retryStatusCodes : List Nat := [429, 500, 502, 503, 504]

inductive AttemptOutcome where
  | resp (status : Nat)
  | exn (e : PyExn)
deriving DecidableEq, Repr

inductive AttemptRes where
  | ok (status : Nat)
  | raised (e : PyExn)
deriving DecidableEq, Repr

/-- Lines 143-150: the request plus the status-code check.  A status in
`retry_status_codes` raises `httpx.HTTPStatusError`; any other status is
returned; an exception from the transport is raised as such. -/
def attemptRes : AttemptOutcome → AttemptRes
  | .resp s => if s ∈ retryStatusCodes then .raised (.httpStatusError s) else .ok s
  | .exn e => .raised e

structure RunState where
  pool : List (Option String)
  client : Option (Option String)
  attemptsMade : Nat
  boundProxies : List (Option String)
  discarded : List (Option String)
deriving DecidableEq, Repr

/-- One call `await self.proxy_pool.get_next_proxy()`. -/
def popPool (st : RunState) : Option String × RunState :=
  match st.pool with
  | [] => (none, st)
  | p :: rest => (p, { st with pool := rest })

/-- Method `_get_http_client` (lines 128-131): reuse the existing transport, or
build one — `_create_http_client` (lines 68-77) fetches an address from the
pool and binds the new transport to it. -/
def ensureClient (st : RunState) : Option String × RunState :=
  match st.client with
  | some c => (c, st)
  | none =>
    let r := popPool st
    (r.1, { r.2 with client := some r.1, boundProxies := r.2.boundProxies ++ [r.1] })

/-- The retryable-failure handler body (lines 153-154): `get_next_proxy()`
with the answer discarded, then `_refresh_client()` which closes the old
transport and builds a new one bound to a freshly fetched address. -/
def refreshOnFailure (st : RunState) : RunState :=
  let r1 := popPool st
  let st2 := { r1.2 with discarded := r1.2.discarded ++ [r1.1] }
  let r2 := popPool st2
  { r2.2 with client := some r2.1, boundProxies := r2.2.boundProxies ++ [r2.1] }

inductive RunResult where
  | success (status : Nat) (st : RunState)
  | fatal (e : PyExn) (st : RunState)
  | exhausted (e : PyExn) (st : RunState)
  | loopExit (st : RunState)
deriving DecidableEq, Repr

/-- The `while retries <= self.max_retries` loop (lines 139-158).
`fatal` is an exception that does not match `retry_exceptions` and
propagates out of the `try`; `exhausted` is the explicit re-`raise` once
`retries > max_retries`; `loopExit` is the (dead) fall-through of the
`while`. -/
def request_with_retry (outcomes : Nat → AttemptOutcome) (maxRetries : Nat)
    (retries : Nat) (st : RunState) : RunResult :=
  if _h : retries ≤ maxRetries then
    let r := ensureClient st
    let st2 := { r.2 with attemptsMade := r.2.attemptsMade + 1 }
    match attemptRes (outcomes r.2.attemptsMade) with
    | .ok s => .success s st2
    | .raised e =>
      if caughtByRetryExceptions e then
        let st3 := refreshOnFailure st2
        if h2 : retries + 1 > maxRetries then .exhausted e st3
        else request_with_retry outcomes maxRetries (retries + 1) st3
      else .fatal e st2
  else .loopExit st
termination_by maxRetries + 1 - retries
decreasing_by omega

def initRunState (pool : List (Option String)) (client : Option (Option String)) :
    RunState :=
  { pool := pool, client := client, attemptsMade := 0, boundProxies := [],
    discarded := [] }

/-- C1 evaluation at the failing input: with every attempt answering
status `500` and `max_retries = 3`, the raised `httpx.HTTPStatusError` is not
matched by `retry_exceptions` (it is not a `RequestError` subclass), so it
propagates out of the `try` on the very first attempt: one attempt, no retry,
no address fetched.  A status-`200` response is returned immediately.  So the
claim's second half holds but "a request that always answers 500 is retried
up to the configured limit" does not. -/
theorem status500_not_retried :
    request_with_retry (fun _ => .resp 500) 3 0 (initRunState [] (some none))
      = .fatal (.httpStatusError 500)
          { pool := [], client := some none, attemptsMade := 1,
            boundProxies := [], discarded := [] }
    ∧ request_with_retry (fun _ => .resp 200) 3 0 (initRunState [] (some none))
      = .success 200
          { pool := [], client := some none, attemptsMade := 1,
            boundProxies := [], discarded := [] }
    ∧ (500 ∈ retryStatusCodes)
    ∧ caughtByRetryExceptions (.httpStatusError 500) = false := by
  refine ⟨?_, ?_, by decide, rfl⟩
  · rw [request_with_retry]
    simp [initRunState, ensureClient, attemptRes, retryStatusCodes,
      caughtByRetryExceptions]
  · rw [request_with_retry]
    simp [initRunState, ensureClient, attemptRes, retryStatusCodes]

theorem ensureClient_attemptsMade (st : RunState) :
    (ensureClient st).2.attemptsMade = st.attemptsMade := by
  unfold ensureClient popPool
  cases st.client <;> cases hp : st.pool <;> simp [hp]

/-- The state after one retryable-failure handler run (attempt counted, old
answer discarded, transport rebuilt). -/
def stepState (st : RunState) : RunState :=
  refreshOnFailure
    { (ensureClient st).2 with attemptsMade := st.attemptsMade + 1 }

theorem refreshOnFailure_attemptsMade (st : RunState) :
    (refreshOnFailure st).attemptsMade = st.attemptsMade := by
  unfold refreshOnFailure popPool
  cases hp : st.pool with
  | nil => simp [hp]
  | cons a rest => cases rest <;> simp [hp]

theorem stepState_attemptsMade (st : RunState) :
    (stepState st).attemptsMade = st.attemptsMade + 1 := by
  unfold stepState
  rw [refreshOnFailure_attemptsMade]

/-- One unfolding of the loop when the current attempt is allowed. -/
theorem request_with_retry_step (outcomes : Nat → AttemptOutcome)
    (maxRetries retries : Nat) (st : RunState) (hr : retries ≤ maxRetries) :
    request_with_retry outcomes maxRetries retries st =
      match attemptRes (outcomes st.attemptsMade) with
      | .ok s => .success s
          { (ensureClient st).2 with attemptsMade := st.attemptsMade + 1 }
      | .raised e =>
        if caughtByRetryExceptions e then
          if retries + 1 > maxRetries then .exhausted e (stepState st)
          else request_with_retry outcomes maxRetries (retries + 1) (stepState st)
        else .fatal e
          { (ensureClient st).2 with attemptsMade := st.attemptsMade + 1 } := by
  rw [request_with_retry, dif_pos hr]
  simp only [stepState, ensureClient_attemptsMade, dite_eq_ite]

theorem exhaust_aux (outcomes : Nat → AttemptOutcome) (maxRetries : Nat)
    (hall : ∀ i, ∃ e, attemptRes (outcomes i) = .raised e ∧
      caughtByRetryExceptions e = true) :
    ∀ (k retries : Nat) (st : RunState), retries + k = maxRetries →
      ∃ e st', request_with_retry outcomes maxRetries retries st = .exhausted e st'
        ∧ attemptRes (outcomes (st.attemptsMade + k)) = .raised e
        ∧ st'.attemptsMade = st.attemptsMade + k + 1 := by
  intro k
  induction k with
  | zero =>
    intro retries st hrk
    obtain ⟨e, he, hc⟩ := hall st.attemptsMade
    have hr : retries ≤ maxRetries := by omega
    refine ⟨e, stepState st, ?_, by simpa using he, by
      rw [stepState_attemptsMade]⟩
    rw [request_with_retry_step outcomes maxRetries retries st hr, he]
    simp only [hc, if_true]
    rw [if_pos (by omega : retries + 1 > maxRetries)]
  | succ k ih =>
    intro retries st hrk
    obtain ⟨e, he, hc⟩ := hall st.attemptsMade
    have hr : retries ≤ maxRetries := by omega
    obtain ⟨e2, st', hrun, hatt, hfin⟩ := ih (retries + 1) (stepState st) (by omega)
    refine ⟨e2, st', ?_, ?_, ?_⟩
    · rw [request_with_retry_step outcomes maxRetries retries st hr, he]
      simp only [hc, if_true]
      rw [if_neg (by omega : ¬retries + 1 > maxRetries)]
      exact hrun
    · rw [stepState_attemptsMade] at hatt
      have harr : st.attemptsMade + 1 + k = st.attemptsMade + (k + 1) := by omega
      rwa [harr] at hatt
    · rw [hfin, stepState_attemptsMade]
      omega

/-- C4: if every attempt fails with an exception matched by
`retry_exceptions`, the loop makes exactly `max_retries + 1` attempts (so at
most that many) and the error surfaced to the caller at exhaustion is the
exception raised by the last attempt (attempt index `max_retries`). -/
theorem retry_exhaustion_bound (outcomes : Nat → AttemptOutcome)
    (maxRetries : Nat) (pool : List (Option String)) (cl : Option (Option String))
    (hall : ∀ i, ∃ e, attemptRes (outcomes i) = .raised e ∧
      caughtByRetryExceptions e = true) :
    ∃ e st', request_with_retry outcomes maxRetries 0 (initRunState pool cl)
        = .exhausted e st'
      ∧ attemptRes (outcomes maxRetries) = .raised e
      ∧ st'.attemptsMade = maxRetries + 1 := by
  have h := exhaust_aux outcomes maxRetries hall maxRetries 0 (initRunState pool cl)
    (by omega)
  simpa [initRunState] using h

/-- C4 witness: with `max_retries = 1` and every attempt a `ConnectTimeout`:
two attempts, exhaustion surfaces the `ConnectTimeout` of the last one. -/
theorem retry_exhaustion_bound_witness :
    ∃ e st', request_with_retry (fun _ => .exn .connectTimeout) 1
        0 (initRunState [] none) = .exhausted e st'
      ∧ attemptRes ((fun _ => AttemptOutcome.exn PyExn.connectTimeout) 1) = .raised e
      ∧ st'.attemptsMade = 1 + 1 :=
  retry_exhaustion_bound (fun _ => .exn .connectTimeout) 1 [] none
    (fun _ => ⟨.connectTimeout, rfl, rfl⟩)

/-- C10: on a retryable failure the handler consumes two answers from the
pool before the next attempt: the one fetched on line 153 is discarded, and
the transport rebuilt by `_refresh_client` is bound to the second one fetched
inside `_create_http_client`. -/
theorem double_fetch_on_retry (outcomes : Nat → AttemptOutcome)
    (maxRetries : Nat) (e : PyExn) (c a b : Option String)
    (rest : List (Option String)) (st : RunState)
    (hcl : st.client = some c) (hpool : st.pool = a :: b :: rest)
    (hatt : attemptRes (outcomes st.attemptsMade) = .raised e)
    (hc : caughtByRetryExceptions e = true) (hm : 1 ≤ maxRetries) :
    ∃ st', request_with_retry outcomes maxRetries 0 st
        = request_with_retry outcomes maxRetries 1 st'
      ∧ st'.pool = rest
      ∧ st'.discarded = st.discarded ++ [a]
      ∧ st'.client = some b
      ∧ st'.boundProxies = st.boundProxies ++ [b]
      ∧ st'.attemptsMade = st.attemptsMade + 1 := by
  have hens : (ensureClient st).2 = st := by
    unfold ensureClient
    rw [hcl]
  have hstep : stepState st
      = refreshOnFailure { st with attemptsMade := st.attemptsMade + 1 } := by
    unfold stepState
    rw [hens]
  refine ⟨stepState st, ?_, ?_, ?_, ?_, ?_, stepState_attemptsMade st⟩
  · rw [request_with_retry_step outcomes maxRetries 0 st (by omega), hatt]
    simp only [hc, if_true]
    rw [if_neg (by omega : ¬0 + 1 > maxRetries)]
  · rw [hstep]
    unfold refreshOnFailure popPool
    simp [hpool]
  · rw [hstep]
    unfold refreshOnFailure popPool
    simp [hpool]
  · rw [hstep]
    unfold refreshOnFailure popPool
    simp [hpool]
  · rw [hstep]
    unfold refreshOnFailure popPool
    simp [hpool]

/-- C10 witness: a `ProxyError` on the first attempt with pool answers
`[a, b]`: `a` is fetched and discarded, the new transport is bound to `b`. -/
theorem double_fetch_on_retry_witness :
    ∃ st', request_with_retry (fun _ => .exn .proxyError) 2 0
        (initRunState [some "http://1.1.1.1:1", some "http://2.2.2.2:2"] (some none))
        = request_with_retry (fun _ => .exn .proxyError) 2 1 st'
      ∧ st'.pool = []
      ∧ st'.discarded = [] ++ [some "http://1.1.1.1:1"]
      ∧ st'.client = some (some "http://2.2.2.2:2")
      ∧ st'.boundProxies = [] ++ [some "http://2.2.2.2:2"]
      ∧ st'.attemptsMade = 0 + 1 :=
  double_fetch_on_retry (fun _ => .exn .proxyError) 2 .proxyError
    none (some "http://1.1.1.1:1") (some "http://2.2.2.2:2") []
    (initRunState [some "http://1.1.1.1:1", some "http://2.2.2.2:2"] (some none))
    rfl rfl rfl rfl (by omega)

/-! ## `ProxyPool._init_providers` (proxy.py lines 59-89)

`ProxyPool.__init__` (line 57) ends with a call to `_init_providers`, so an
exception raised there escapes the constructor.  Line 66 reads the bare names
`debug` and `debug_proxy`.  Neither is a parameter, a local, an attribute
access, or a global of the module: the names bound at module level in
`proxy.py` are exactly the imports and the four classes.  Evaluating an
unbound name raises `NameError`; `debug` is evaluated first in
`if debug and debug_proxy:`. -/

/-- The names bound in the module namespace of `proxy.py` (imports on lines
1-10 and the class statements). -/
def proxyModuleGlobals : List String :=
  ["Optional", "ABC", "abstractmethod", "urlparse", "ipaddress", "asyncio",
   "httpx", "logger", "AppConfig", "ProxyPlatformConfig", "ProxyProvider",
   "DebugProxyProvider", "RemoteProxyProvider", "ProxyPool"]

inductive PyValue where
  | str (s : String)
  | noneV
deriving DecidableEq, Repr

/-- Evaluating a bare name in `_init_providers`: defined module-level names
evaluate to some value (its identity is irrelevant here, all we need is
definedness), an unbound name raises `NameError`. -/
def evalGlobal (n : String) : Except PyExn PyValue :=
  if n ∈ proxyModuleGlobals then .ok .noneV else .error (.nameError n)

def pyTruthy : PyValue → Bool
  | .str s => !s.isEmpty
  | .noneV => false

def pyStrOf : PyValue → String
  | .str s => s
  | .noneV => ""

structure PlatformEntry where
  name : String
  get_proxy_link : String
  priority : Nat
  zh_name : String
deriving DecidableEq, Repr

structure ProxyConfig where
  enable : Bool
  use : String
  proxy_platforms : List PlatformEntry
deriving DecidableEq, Repr

inductive Provider where
  | debugProvider (proxy : String)
  | remoteProvider (platform : PlatformEntry)
deriving DecidableEq, Repr

/-- The outcome of `_init_providers`: either a normal return carrying the
installed providers and whether `_start_preload` launched the preload task,
or an escaped exception together with the providers installed and the
preload status at the moment it escaped. -/
inductive InitOutcome where
  | ok (providers : List Provider) (preloadStarted : Bool)
  | raised (e : PyExn) (providers : List Provider) (preloadStarted : Bool)
deriving DecidableEq, Repr

/-- Lines 72-89, reached only if line 66 evaluated without raising (dead for
every configuration, since `debug` is unbound; kept for faithfulness).
`_start_preload` (lines 91-94) starts the task iff the provider list is
non-empty and no task exists yet (none does during `__init__`). -/
def initProvidersTail (cfg : ProxyConfig) : InitOutcome :=
  if cfg.use == "debug_proxy" then
    match evalGlobal "debug_proxy" with
    | .error e => .raised e [] false
    | .ok dp =>
      let provs := if pyTruthy dp then [Provider.debugProvider (pyStrOf dp)] else []
      .ok provs (!provs.isEmpty)
  else
    let platforms := cfg.proxy_platforms.filter (fun p => p.name == cfg.use)
    let sorted := platforms.mergeSort (fun x y => x.priority ≤ y.priority)
    let provs := sorted.map Provider.remoteProvider
    .ok provs (!provs.isEmpty)

def init_providers (cfg : ProxyConfig) : InitOutcome :=
  if !cfg.enable then .ok [] false
  else
    match evalGlobal "debug" with
    | .error e => .raised e [] false
    | .ok dbg =>
      if pyTruthy dbg then
        match evalGlobal "debug_proxy" with
        | .error e => .raised e [] false
        | .ok dp =>
          if pyTruthy dp then .ok [Provider.debugProvider (pyStrOf dp)] true
          else initProvidersTail cfg
      else initProvidersTail cfg

/-- C3: for every configuration with `proxy_config.enable` true,
`_init_providers` — and hence the `ProxyPool` constructor that calls it —
raises `NameError` for the unbound name `debug`, with the provider list still
empty and the preload task not started. -/
theorem init_providers_name_error (cfg : ProxyConfig) (hen : cfg.enable = true) :
    init_providers cfg = .raised (.nameError "debug") [] false := by
  unfold init_providers
  rw [hen]
  simp [evalGlobal, proxyModuleGlobals]

/-- C3 witness. -/
theorem init_providers_name_error_witness :
    init_providers { enable := true, use := "proxy1", proxy_platforms := [] }
      = .raised (.nameError "debug") [] false :=
  init_providers_name_error
    { enable := true, use := "proxy1", proxy_platforms := [] } rfl

/-! ## `ProxyPool.close` (proxy.py lines 185-194)

`close()` sets the stop event, and — when a preload task exists and is not
done — awaits it with `asyncio.wait_for(task, timeout=5.0)`; on
`TimeoutError` it cancels the task and awaits the cancellation.  The worker
(lines 96-133) wraps its whole loop body in `try`, catches `CancelledError`
and `break`s (lines 128-130), so awaiting the cancelled task returns
normally: no branch of `close` raises, which is why the embedding is a total
function.  The task is modelled by whether it is already done, plus the time
it still needs to finish naturally once the stop signal is set; `close`
returns the new pool state, the time it consumed, and which branch ran. -/

def closeTimeout : ℚ := 5

structure PreloadTask where
  done : Bool
  remainingTime : ℚ
deriving DecidableEq, Repr

structure PoolCloseState where
  stopSet : Bool
  task : Option PreloadTask
deriving DecidableEq, Repr

inductive CloseOutcome where
  | noTask
  | alreadyDone
  | finishedNaturally
  | forceCancelled
deriving DecidableEq, Repr

def close (s : PoolCloseState) : PoolCloseState × ℚ × CloseOutcome :=
  let s1 : PoolCloseState := { s with stopSet := true }
  match s1.task with
  | none => (s1, 0, .noTask)
  | some t =>
    if t.done then (s1, 0, .alreadyDone)
    else if t.remainingTime ≤ closeTimeout then
      ({ s1 with task := some { done := true, remainingTime := 0 } },
        t.remainingTime, .finishedNaturally)
    else
      ({ s1 with task := some { done := true, remainingTime := 0 } },
        closeTimeout, .forceCancelled)

/-- C8: the method `close` is idempotent — a second call leaves the state unchanged
and consumes no time — it is a no-op raising nothing when no preload task was
ever started, it sets the stop signal, it consumes at most the 5-unit grace
period, and it force-cancels only when the natural completion would exceed
that deadline (a task whose remaining time is within the deadline finishes
naturally). -/
theorem close_correct :
    (∀ s : PoolCloseState, (close (close s).1).1 = (close s).1) ∧
    (∀ s : PoolCloseState, (close (close s).1).2.1 = 0) ∧
    (∀ s : PoolCloseState, s.task = none →
      close s = ({ stopSet := true, task := none }, 0, .noTask)) ∧
    (∀ s : PoolCloseState, (close s).1.stopSet = true) ∧
    (∀ s : PoolCloseState, (close s).2.1 ≤ closeTimeout) ∧
    (∀ (s : PoolCloseState) (t : PreloadTask), s.task = some t → t.done = false →
      ((close s).2.2 = .forceCancelled ↔ closeTimeout < t.remainingTime)) := by
  have hz : (0 : ℚ) ≤ closeTimeout := by norm_num [closeTimeout]
  refine ⟨?_, ?_, ?_, ?_, ?_, ?_⟩
  · intro s
    unfold close
    cases ht : s.task with
    | none => simp
    | some t =>
      by_cases hd : t.done
      · simp [hd]
      · by_cases hrem : t.remainingTime ≤ closeTimeout <;> simp [hd, hrem]
  · intro s
    unfold close
    cases ht : s.task with
    | none => simp
    | some t =>
      by_cases hd : t.done
      · simp [hd]
      · by_cases hrem : t.remainingTime ≤ closeTimeout <;> simp [hd, hrem]
  · intro s ht
    unfold close
    rw [ht]
  · intro s
    unfold close
    cases ht : s.task with
    | none => simp
    | some t =>
      by_cases hd : t.done
      · simp [hd]
      · by_cases hrem : t.remainingTime ≤ closeTimeout <;> simp [hd, hrem]
  · intro s
    unfold close
    cases ht : s.task with
    | none => simpa using hz
    | some t =>
      by_cases hd : t.done
      · simpa [hd] using hz
      · by_cases hrem : t.remainingTime ≤ closeTimeout
        · simp [hd, hrem]
        · simp [hd, hrem]
  · intro s t ht hd
    unfold close
    rw [ht]
    by_cases hrem : t.remainingTime ≤ closeTimeout
    · simp [hd, hrem, not_lt]
    · simp only [hd, hrem, Bool.false_eq_true, if_false, if_neg hrem]
      simpa using lt_of_not_le hrem

/-- C8 witness. -/
theorem close_correct_witness :
    close { stopSet := false, task := none }
      = ({ stopSet := true, task := none }, 0, .noTask) :=
  close_correct.2.2.1 { stopSet := false, task := none } rfl

/-! ## `RemoteProxyProvider.get_proxy` (proxy.py lines 27-38)

A single `GET` to `self.config.get_proxy_link` with `timeout=5`; on success
the full response body, stripped, is returned prefixed with `http://`; any
exception (transport error or timeout) is caught, logged, and turned into
`None`.  The transport is passed in as a function from (url, timeout) to a
`TransportResult`; the second component of the result counts the outbound
`GET` requests the call issued. -/

inductive TransportResult where
  | ok (body : String)
  | transportError (msg : String)
  | timeoutError
deriving DecidableEq, Repr

def remote_get_proxy (platform : PlatformEntry)
    (fetch : String → ℚ → TransportResult) : Option String × Nat :=
  match fetch platform.get_proxy_link 5 with
  | .ok body => (some ("http://" ++ body.trim), 1)
  | .transportError _ => (none, 1)
  | .timeoutError => (none, 1)

/-- C9: every call issues exactly one outbound `GET` (no retries); a
successful response yields the trimmed body formatted as `http://host:port`;
any transport error or timeout yields `none`; and the embedding is a total
function — the `except Exception` on line 36 absorbs every failure, so no
exception propagates. -/
theorem remote_get_proxy_correct :
    (∀ (platform : PlatformEntry) (fetch : String → ℚ → TransportResult),
      (remote_get_proxy platform fetch).2 = 1) ∧
    (∀ (platform : PlatformEntry) (fetch : String → ℚ → TransportResult) (body : String),
      fetch platform.get_proxy_link 5 = .ok body →
      (remote_get_proxy platform fetch).1 = some ("http://" ++ body.trim)) ∧
    (∀ (platform : PlatformEntry) (fetch : String → ℚ → TransportResult) (msg : String),
      fetch platform.get_proxy_link 5 = .transportError msg →
      (remote_get_proxy platform fetch).1 = none) ∧
    (∀ (platform : PlatformEntry) (fetch : String → ℚ → TransportResult),
      fetch platform.get_proxy_link 5 = .timeoutError →
      (remote_get_proxy platform fetch).1 = none) := by
  refine ⟨?_, ?_, ?_, ?_⟩
  · intro platform fetch
    unfold remote_get_proxy
    cases fetch platform.get_proxy_link 5 <;> rfl
  · intro platform fetch body h
    unfold remote_get_proxy
    rw [h]
  · intro platform fetch msg h
    unfold remote_get_proxy
    rw [h]
  · intro platform fetch h
    unfold remote_get_proxy
    rw [h]

/-- C9 witness. -/
theorem remote_get_proxy_correct_witness :
    (remote_get_proxy
        { name := "p", get_proxy_link := "http://api.example/fetch",
          priority := 1, zh_name := "p" }
        (fun _ _ => .ok "  1.2.3.4:8080  ")).1
      = some ("http://" ++ ("  1.2.3.4:8080  " : String).trim) :=
  remote_get_proxy_correct.2.1
    { name := "p", get_proxy_link := "http://api.example/fetch",
      priority := 1, zh_name := "p" }
    (fun _ _ => .ok "  1.2.3.4:8080  ") "  1.2.3.4:8080  " rfl

end ZfRush
